import Mathlib

/-!
# Verification of the mmqtt packet construction and publish pipeline

Shallow embedding of `src/mmqtt/tx_message_handler.py` (functions
`generate_mesh_packet`, `create_payload`, `publish_message`) together with
the override-resolution conventions established by
`src/mmqtt/argument_parser.py` (`handle_args`).

Modelling choices:
* Python strings are Lean `String`; Python ints are `Nat` (the program only
  ever handles non-negative identifiers and destinations).
* Python truthiness in `x or y` chains is modelled explicitly: `None`, `""`
  and `0` are falsy (`pyOrStr`, `pyOrNat`).
* Protobuf scalar assignment to a `uint32` field raises `ValueError` when
  the value does not fit in 32 bits; those checks are modelled at the
  points where `generate_mesh_packet` assigns `from`, `to`, `channel`,
  `hop_limit` and `hop_start`.
* `encrypt_packet` (from `mmqtt/encryption.py`) and `generate_hash` (from
  `mmqtt/utils.py`) are not part of the sources under verification; they
  are taken as function parameters.  `encrypt_packet` receives exactly the
  data the call site passes it: the channel name, the channel key, and the
  packet identity fields (`id`, `from`) of the partially built MeshPacket,
  plus the inner message; it may fail (invalid key).  `get_message_id`
  (also `mmqtt/utils.py`) is abstracted by passing the freshly produced
  message id as a parameter.
* Exceptions are modelled by `Except String`; a Python function that
  returns normally is modelled by a total function.
-/

namespace Mmqtt

/-- Python `a or b` for an optional string `a`: `None` and the empty string
are falsy, so the default is used for both. -/
def pyOrStr (o : Option String) (d : String) : String :=
  match o with
  | some s => if s = "" then d else s
  | none => d

/-- Python `a or b` for an optional integer `a`: `None` and `0` are falsy,
so the default is used for both. -/
def pyOrNat (o : Option Nat) (d : Nat) : Nat :=
  match o with
  | some n => if n = 0 then d else n
  | none => d

/-- Value of a hexadecimal digit, `none` for a non-hex character. -/
def hexDigitVal (c : Char) : Option Nat :=
  if '0' ≤ c ∧ c ≤ '9' then some (c.toNat - '0'.toNat)
  else if 'a' ≤ c ∧ c ≤ 'f' then some (c.toNat - 'a'.toNat + 10)
  else if 'A' ≤ c ∧ c ≤ 'F' then some (c.toNat - 'A'.toNat + 10)
  else none

/-- Python `int(s, 16)` on a plain string of hexadecimal digits: succeeds
iff `s` is non-empty and every character is a hex digit. -/
def parseHex (s : String) : Option Nat :=
  if s.data = [] then none
  else
    s.data.foldl
      (fun acc c =>
        match acc, hexDigitVal c with
        | some a, some d => some (16 * a + d)
        | _, _ => none)
      (some 0)

/-- Python `s.replace("!", "")`: every occurrence of `'!'` is removed. -/
def stripBangs (s : String) : String :=
  ⟨s.data.filter (fun c => c ≠ '!')⟩

/-- Python `s.startswith("!")`. -/
def startsWithBang (s : String) : Bool :=
  match s.data with
  | c :: _ => c = '!'
  | [] => false

/-- Python `s.lower()` (ASCII case fold, which is all the program uses). -/
def pyLower (s : String) : String :=
  ⟨s.data.map Char.toLower⟩

/-- The `mesh_pb2.Data` inner message assembled by `create_payload`. -/
structure InnerMessage where
  portnum : Nat
  payload : List Nat
  want_response : Bool
  bitfield : Nat
  deriving Repr, DecidableEq

/-- The body of a MeshPacket: exactly one of the protobuf `decoded` /
`encrypted` oneof variants. -/
inductive Body where
  | decoded (msg : InnerMessage)
  | encrypted (bytes : List Nat)
  deriving Repr, DecidableEq

/-- The fields of `mesh_pb2.MeshPacket` that `generate_mesh_packet`
populates. -/
structure MeshPacket where
  id : Nat
  «from» : Nat
  «to» : Nat
  want_ack : Bool
  channel : Nat
  hop_limit : Nat
  hop_start : Nat
  body : Body
  deriving Repr, DecidableEq

/-- Model of `mqtt_pb2.ServiceEnvelope`, the outermost serialized unit. -/
structure ServiceEnvelope where
  packet : MeshPacket
  channel_id : String
  gateway_id : String
  deriving Repr, DecidableEq

/-- The `_overrides` dictionary built by `handle_args`
(`argument_parser.py` lines 101-111): each entry is `None` (unset) or a
value.  `channel_key` is the one field where `handle_args` preserves the
explicit empty string (lines 93-99); for the others a falsy CLI value is
normalised to `None` by `... or None`. -/
structure Overrides where
  node_id : Option String
  channel_preset : Option String
  channel_key : Option String
  destination : Option Nat
  hop_limit : Option Nat
  priority : Option String
  deriving Repr, DecidableEq

/-- The configuration fields consulted by the pipeline
(`config.nodeinfo.id`, `config.channel.preset`, `config.channel.key`,
`config.message.destination_id`, `config.mqtt.root_topic`), flattened. -/
structure Config where
  nodeinfo_id : String
  channel_preset : String
  channel_key : String
  destination_id : Nat
  root_topic : String
  deriving Repr, DecidableEq

/-- The client attributes consulted on the `use_config = False` path
(`client.node_id`, `client.channel`, `client.key`,
`client.destination_id`, `client.root_topic`). -/
structure Client where
  node_id : String
  channel : String
  key : String
  destination_id : Nat
  root_topic : String
  deriving Repr, DecidableEq

/-- The keyword arguments `generate_mesh_packet` consults besides
`use_config` and `_overrides`: `kwargs.get("to")`, `kwargs.get("want_ack",
False)`, `kwargs.get("hop_limit", 3)` and `kwargs.get("hop_start", 3)`.
`none` models an absent key. -/
structure KwArgs where
  «to» : Option Nat
  want_ack : Bool
  hop_limit : Option Nat
  hop_start : Option Nat
  deriving Repr, DecidableEq

/-- Line 88: `node_id = _overrides['node_id'] or config.nodeinfo.id`, resp.
`... or client.node_id` (line 100). -/
def resolvedNodeId (use_config : Bool) (config : Config) (client : Client)
    (ov : Overrides) : String :=
  pyOrStr ov.node_id (if use_config then config.nodeinfo_id else client.node_id)

/-- Line 91: `channel_id = _overrides['channel_preset'] or
config.channel.preset`, resp. `... or client.channel` (line 103). -/
def resolvedChannelId (use_config : Bool) (config : Config) (client : Client)
    (ov : Overrides) : String :=
  pyOrStr ov.channel_preset (if use_config then config.channel_preset else client.channel)

/-- Line 92: `channel_key = _overrides['channel_key'] if
_overrides['channel_key'] is not None else config.channel.key`, resp. `... else client.key`
(line 104).  Unlike the other fields this is a plain `None` test, so an
explicit empty string wins over the configuration. -/
def resolvedChannelKey (use_config : Bool) (config : Config) (client : Client)
    (ov : Overrides) : String :=
  match ov.channel_key with
  | some k => k
  | none => if use_config then config.channel_key else client.key

/-- Line 96: `destination = _overrides['destination'] or kwargs.get("to",
config.message.destination_id)`, resp. `... client.destination_id`
(line 108). -/
def resolvedDestination (use_config : Bool) (config : Config) (client : Client)
    (ov : Overrides) (kw : KwArgs) : Nat :=
  pyOrNat ov.destination
    (kw.«to».getD (if use_config then config.destination_id else client.destination_id))

/-- Line 110: `reserved_ids = [1, 2, 3, 4, 4294967295]`. -/
def reserved_ids : List Nat := [1, 2, 3, 4, 4294967295]

/-- Shallow embedding of `generate_mesh_packet` (tx_message_handler.py
lines 79-136).  `generate_hash` and `encrypt_packet` live outside the
verified sources and are parameters; `message_id` is the value produced by
`get_message_id` for this send.  Python exceptions (explicit `raise`,
failed hex parse, protobuf uint32 range errors) become `Except.error`. -/
def generate_mesh_packet (use_config : Bool) (config : Config) (client : Client)
    (ov : Overrides) (kw : KwArgs)
    (generate_hash : String → String → Nat)
    (encrypt_packet : String → String → Nat → Nat → InnerMessage → Except String (List Nat))
    (message_id : Nat) (encoded_message : InnerMessage) :
    Except String ServiceEnvelope :=
  let node_id := resolvedNodeId use_config config client ov
  if ¬ startsWithBang node_id then
    .error "Node ID must start with '!'"
  else
    let channel_id := resolvedChannelId use_config config client ov
    let channel_key := resolvedChannelKey use_config config client ov
    let gateway_id := pyLower node_id
    match parseHex (stripBangs node_id) with
    | none => .error "invalid literal for int() with base 16"
    | some from_id =>
      let destination := resolvedDestination use_config config client ov kw
      if from_id ∈ reserved_ids then
        .error "Node ID is reserved and cannot be used"
      else if 2 ^ 32 ≤ from_id then
        .error "Value out of range: from"
      else if 2 ^ 32 ≤ destination then
        .error "Value out of range: to"
      else
        let channel := generate_hash channel_id channel_key
        if 2 ^ 32 ≤ channel then
          .error "Value out of range: channel"
        else
          let hop_limit := pyOrNat ov.hop_limit (kw.hop_limit.getD 3)
          let hop_start := pyOrNat ov.hop_limit (kw.hop_start.getD 3)
          if 2 ^ 32 ≤ hop_limit then
            .error "Value out of range: hop_limit"
          else if 2 ^ 32 ≤ hop_start then
            .error "Value out of range: hop_start"
          else
            let mkEnv : Body → ServiceEnvelope := fun body =>
              { packet :=
                  { id := message_id, «from» := from_id, «to» := destination,
                    want_ack := kw.want_ack, channel := channel,
                    hop_limit := hop_limit, hop_start := hop_start, body := body },
                channel_id := channel_id, gateway_id := gateway_id }
            if channel_key = "" then
              .ok (mkEnv (.decoded encoded_message))
            else
              match encrypt_packet channel_id channel_key message_id from_id encoded_message with
              | .error e => .error e
              | .ok enc => .ok (mkEnv (.encrypted enc))

/-- Shallow embedding of `create_payload` (lines 69-76): builds the inner
`mesh_pb2.Data` message and hands it to `generate_mesh_packet`. -/
def create_payload (data : List Nat) (portnum : Nat) (bitfield : Nat)
    (want_response : Bool)
    (use_config : Bool) (config : Config) (client : Client)
    (ov : Overrides) (kw : KwArgs)
    (generate_hash : String → String → Nat)
    (encrypt_packet : String → String → Nat → Nat → InnerMessage → Except String (List Nat))
    (message_id : Nat) : Except String ServiceEnvelope :=
  let encoded_message : InnerMessage :=
    { portnum := portnum, payload := data, want_response := want_response,
      bitfield := bitfield }
  generate_mesh_packet use_config config client ov kw generate_hash encrypt_packet
    message_id encoded_message

/-- The envelope `generate_mesh_packet` serializes on success, as a function
of the resolved parameters and the chosen body. -/
def mkEnvelope (use_config : Bool) (config : Config) (client : Client)
    (ov : Overrides) (kw : KwArgs) (generate_hash : String → String → Nat)
    (message_id from_id : Nat) (body : Body) : ServiceEnvelope :=
  { packet :=
      { id := message_id, «from» := from_id,
        «to» := resolvedDestination use_config config client ov kw,
        want_ack := kw.want_ack,
        channel := generate_hash (resolvedChannelId use_config config client ov)
          (resolvedChannelKey use_config config client ov),
        hop_limit := pyOrNat ov.hop_limit (kw.hop_limit.getD 3),
        hop_start := pyOrNat ov.hop_limit (kw.hop_start.getD 3),
        body := body },
    channel_id := resolvedChannelId use_config config client ov,
    gateway_id := pyLower (resolvedNodeId use_config config client ov) }

/-- The state-and-topic resolution performed by `publish_message` (lines
39-47): under `use_config` the overrides are written back into the shared
configuration object before the topic is built from the updated values;
otherwise the client module attributes are updated likewise.  Returns the
updated configuration, the updated client, and the topic string. -/
def resolveTopicState (use_config : Bool) (config : Config) (client : Client)
    (ov : Overrides) : Config × Client × String :=
  if use_config then
    let config' : Config :=
      { config with
        nodeinfo_id := pyOrStr ov.node_id config.nodeinfo_id,
        channel_preset := pyOrStr ov.channel_preset config.channel_preset }
    (config', client,
      config'.root_topic ++ "/2/e/" ++ config'.channel_preset ++ "/"
        ++ pyLower config'.nodeinfo_id)
  else
    let client' : Client :=
      { client with
        node_id := pyOrStr ov.node_id client.node_id,
        channel := pyOrStr ov.channel_preset client.channel }
    (config, client',
      client'.root_topic ++ "/2/e/" ++ client'.channel ++ "/"
        ++ pyLower client'.node_id)

/-- The fallible part of `publish_message`'s `try` block after the (never
failing) state/topic resolution: run the payload function — which performs
identity/channel resolution, packet assembly and encryption via
`create_payload`/`generate_mesh_packet` — then hand the result to the
transport's `client.publish`.  Either step may raise. -/
def publish_message_try (topic : String)
    (payload_function : Except String ServiceEnvelope)
    (client_publish : String → ServiceEnvelope → Except String Unit) :
    Except String ServiceEnvelope := do
  let payload ← payload_function
  client_publish topic payload
  pure payload

/-- The observable result of one `publish_message` call: the configuration
and client state after the call (the state a subsequent send would read),
the topic that was resolved, the envelope handed to the transport (if
any), and the error message printed by the `except` handler (if any). -/
structure PublishOutcome where
  config : Config
  client : Client
  topic : String
  published : Option ServiceEnvelope
  loggedError : Option String
  deriving Repr, DecidableEq

/-- Shallow embedding of `publish_message` (tx_message_handler.py lines
30-66).  The `try` block resolves state and topic (lines 39-47, modelled by
`resolveTopicState`; these lines cannot raise), then builds and publishes
the payload (modelled by `publish_message_try`); any exception is caught by
the blanket `except` handler (lines 65-66), which prints the error and
falls off the end of the function.  `publish_message` therefore always
returns normally: this is a total function into `PublishOutcome`. -/
def publish_message (use_config : Bool) (config : Config) (client : Client)
    (ov : Overrides)
    (payload_function : Except String ServiceEnvelope)
    (client_publish : String → ServiceEnvelope → Except String Unit) :
    PublishOutcome :=
  let s := resolveTopicState use_config config client ov
  match publish_message_try s.2.2 payload_function client_publish with
  | .ok env =>
    { config := s.1, client := s.2.1, topic := s.2.2,
      published := some env, loggedError := none }
  | .error e =>
    { config := s.1, client := s.2.1, topic := s.2.2,
      published := none, loggedError := some e }

deriving instance DecidableEq for Except

/-- Inversion: every successful run of `generate_mesh_packet` produced the
envelope `mkEnvelope` describes, with a cleartext body exactly when the
resolved channel key is empty and an encrypted body (from a successful
`encrypt_packet` call) otherwise. -/
theorem generate_mesh_packet_ok_shape
    {u : Bool} {cfg : Config} {cl : Client} {ov : Overrides} {kw : KwArgs}
    {gh : String → String → Nat}
    {enc : String → String → Nat → Nat → InnerMessage → Except String (List Nat)}
    {mid : Nat} {msg : InnerMessage} {env : ServiceEnvelope}
    (h : generate_mesh_packet u cfg cl ov kw gh enc mid msg = .ok env) :
    ∃ from_id, parseHex (stripBangs (resolvedNodeId u cfg cl ov)) = some from_id ∧
      ((resolvedChannelKey u cfg cl ov = "" ∧
          env = mkEnvelope u cfg cl ov kw gh mid from_id (.decoded msg)) ∨
        (resolvedChannelKey u cfg cl ov ≠ "" ∧
          ∃ b, enc (resolvedChannelId u cfg cl ov) (resolvedChannelKey u cfg cl ov) mid from_id msg
              = .ok b ∧
            env = mkEnvelope u cfg cl ov kw gh mid from_id (.encrypted b))) := by
  simp only [generate_mesh_packet] at h
  split at h
  · exact Except.noConfusion h
  split at h
  · exact Except.noConfusion h
  rename_i from_id heq
  split at h
  · exact Except.noConfusion h
  split at h
  · exact Except.noConfusion h
  split at h
  · exact Except.noConfusion h
  split at h
  · exact Except.noConfusion h
  split at h
  · exact Except.noConfusion h
  split at h
  · exact Except.noConfusion h
  refine ⟨from_id, heq, ?_⟩
  split at h
  · rename_i hkey
    injection h with h
    exact Or.inl ⟨hkey, h.symm ▸ rfl⟩
  · rename_i hkey
    split at h
    · exact Except.noConfusion h
    rename_i b henc
    injection h with h
    exact Or.inr ⟨hkey, b, henc, h.symm ▸ rfl⟩

/-- Evaluation: on a well-formed send (sigil present, hex parse succeeds,
source id neither reserved nor out of range, and all resolved 32-bit
fields in range) `generate_mesh_packet` reduces to the body branch alone:
cleartext envelope for an empty resolved key, otherwise whatever
`encrypt_packet` returns, mapped into an encrypted envelope. -/
theorem generate_mesh_packet_eq_of_valid
    (u : Bool) (cfg : Config) (cl : Client) (ov : Overrides) (kw : KwArgs)
    (gh : String → String → Nat)
    (enc : String → String → Nat → Nat → InnerMessage → Except String (List Nat))
    (mid : Nat) (msg : InnerMessage) (from_id : Nat)
    (h1 : startsWithBang (resolvedNodeId u cfg cl ov) = true)
    (h2 : parseHex (stripBangs (resolvedNodeId u cfg cl ov)) = some from_id)
    (h3 : from_id ∉ reserved_ids)
    (h4 : from_id < 2 ^ 32)
    (h5 : resolvedDestination u cfg cl ov kw < 2 ^ 32)
    (h6 : gh (resolvedChannelId u cfg cl ov) (resolvedChannelKey u cfg cl ov) < 2 ^ 32)
    (h7 : pyOrNat ov.hop_limit (kw.hop_limit.getD 3) < 2 ^ 32)
    (h8 : pyOrNat ov.hop_limit (kw.hop_start.getD 3) < 2 ^ 32) :
    generate_mesh_packet u cfg cl ov kw gh enc mid msg =
      (if resolvedChannelKey u cfg cl ov = "" then
        .ok (mkEnvelope u cfg cl ov kw gh mid from_id (.decoded msg))
      else
        (enc (resolvedChannelId u cfg cl ov) (resolvedChannelKey u cfg cl ov) mid from_id
            msg).map
          (fun b => mkEnvelope u cfg cl ov kw gh mid from_id (.encrypted b))) := by
  simp only [generate_mesh_packet, h2]
  rw [if_neg (by simp [h1]), if_neg h3, if_neg (Nat.not_le.mpr h4), if_neg (Nat.not_le.mpr h5),
    if_neg (Nat.not_le.mpr h6), if_neg (Nat.not_le.mpr h7), if_neg (Nat.not_le.mpr h8)]
  by_cases hk : resolvedChannelKey u cfg cl ov = ""
  · rw [if_pos hk, if_pos hk]
    rfl
  · rw [if_neg hk, if_neg hk]
    cases henc : enc (resolvedChannelId u cfg cl ov) (resolvedChannelKey u cfg cl ov) mid from_id msg with
    | error e => rfl
    | ok b => rfl

/-- The state and topic fields of a `publish_message` outcome come from
`resolveTopicState`, whether the try block succeeded or not. -/
theorem publish_message_state (u : Bool) (cfg : Config) (cl : Client) (ov : Overrides)
    (pf : Except String ServiceEnvelope)
    (pub : String → ServiceEnvelope → Except String Unit) :
    (publish_message u cfg cl ov pf pub).config = (resolveTopicState u cfg cl ov).1 ∧
    (publish_message u cfg cl ov pf pub).client = (resolveTopicState u cfg cl ov).2.1 ∧
    (publish_message u cfg cl ov pf pub).topic = (resolveTopicState u cfg cl ov).2.2 := by
  simp only [publish_message]
  cases publish_message_try (resolveTopicState u cfg cl ov).2.2 pf pub with
  | error e => exact ⟨rfl, rfl, rfl⟩
  | ok env => exact ⟨rfl, rfl, rfl⟩

/-! ## Concrete fixtures used by the witness and counterexample theorems -/

/-- Baseline configuration fixture with an empty channel key. -/
def cfgA : Config :=
  { nodeinfo_id := "!a1b2c3d4", channel_preset := "LongFast", channel_key := "",
    destination_id := 4294967295, root_topic := "msh/EU_868" }

/-- Baseline client fixture mirroring `cfgA`. -/
def clA : Client :=
  { node_id := "!a1b2c3d4", channel := "LongFast", key := "",
    destination_id := 4294967295, root_topic := "msh/EU_868" }

/-- An overrides bag with every field unset. -/
def ovNone : Overrides :=
  { node_id := none, channel_preset := none, channel_key := none,
    destination := none, hop_limit := none, priority := none }

/-- Keyword arguments with nothing supplied. -/
def kwNone : KwArgs :=
  { «to» := none, want_ack := false, hop_limit := none, hop_start := none }

/-- A concrete channel hash function standing in for `generate_hash`. -/
def hashA : String → String → Nat := fun _ _ => 8

/-- A concrete always-succeeding stand-in for `encrypt_packet`. -/
def encOk : String → String → Nat → Nat → InnerMessage → Except String (List Nat) :=
  fun _ _ _ _ m => .ok m.payload

/-- A concrete always-failing stand-in for `encrypt_packet`. -/
def encFail : String → String → Nat → Nat → InnerMessage → Except String (List Nat) :=
  fun _ _ _ _ _ => .error "InvalidKey"

/-- A concrete inner message (text "hi"). -/
def msgHi : InnerMessage :=
  { portnum := 1, payload := [104, 105], want_response := false, bitfield := 1 }

/-- A concrete always-succeeding transport publish. -/
def pubOk : String → ServiceEnvelope → Except String Unit := fun _ _ => .ok ()

/-! ## The claims -/

/-- C1: for every send, the assembled MeshPacket carries exactly one body
variant (`Body` has exactly the `decoded`/`encrypted` alternatives), and
which one is determined solely by the resolved channel key: if it is the
empty string the cleartext body is set to the InnerMessage and the
encryption function is never invoked — the result is the same for every
encryption function — and otherwise the body is the encrypted variant, not
the cleartext one. -/
theorem C1_single_body_variant_determined_by_key
    (u : Bool) (cfg : Config) (cl : Client) (ov : Overrides) (kw : KwArgs)
    (gh : String → String → Nat)
    (enc enc' : String → String → Nat → Nat → InnerMessage → Except String (List Nat))
    (mid : Nat) (msg : InnerMessage) :
    (resolvedChannelKey u cfg cl ov = "" →
      generate_mesh_packet u cfg cl ov kw gh enc mid msg
          = generate_mesh_packet u cfg cl ov kw gh enc' mid msg ∧
        ∀ env, generate_mesh_packet u cfg cl ov kw gh enc mid msg = .ok env →
          env.packet.body = .decoded msg) ∧
    (resolvedChannelKey u cfg cl ov ≠ "" →
      ∀ env, generate_mesh_packet u cfg cl ov kw gh enc mid msg = .ok env →
        ∃ b, env.packet.body = .encrypted b) := by
  constructor
  · intro hk
    constructor
    · simp only [generate_mesh_packet, hk, reduceIte]
    · intro env henv
      obtain ⟨fid, hfid, hcase⟩ := generate_mesh_packet_ok_shape henv
      rcases hcase with ⟨_, henv'⟩ | ⟨hne, _⟩
      · rw [henv']
        rfl
      · exact absurd hk hne
  · intro hk env henv
    obtain ⟨fid, hfid, hcase⟩ := generate_mesh_packet_ok_shape henv
    rcases hcase with ⟨hk', _⟩ | ⟨_, b, hb, henv'⟩
    · exact absurd hk' hk
    · exact ⟨b, by rw [henv']; rfl⟩

/-- The envelope `generate_mesh_packet` produces for the `cfgA` fixture. -/
def envC1 : ServiceEnvelope :=
  mkEnvelope true cfgA clA ovNone kwNone hashA 7 2712847316 (.decoded msgHi)

/-- Witness for C1 at a concrete cleartext send: the result is the same
under a succeeding and under a failing encryption function, and the body is
the cleartext inner message. -/
theorem C1_witness :
    generate_mesh_packet true cfgA clA ovNone kwNone hashA encOk 7 msgHi
        = generate_mesh_packet true cfgA clA ovNone kwNone hashA encFail 7 msgHi ∧
      envC1.packet.body = .decoded msgHi :=
  ⟨((C1_single_body_variant_determined_by_key true cfgA clA ovNone kwNone hashA encOk encFail
      7 msgHi).1 (by decide)).1,
    ((C1_single_body_variant_determined_by_key true cfgA clA ovNone kwNone hashA encOk encFail
      7 msgHi).1 (by decide)).2 envC1 (by decide)⟩

/-- C2: channel-key resolution is three-valued: a set override — including
the explicit empty string — always wins, an unset override falls back to
the configuration key (resp. the client key), and an explicitly empty
override forces a cleartext body. -/
theorem C2_three_valued_channel_key_resolution
    (u : Bool) (cfg : Config) (cl : Client) (ov : Overrides) :
    (∀ k, ov.channel_key = some k → resolvedChannelKey u cfg cl ov = k) ∧
    (ov.channel_key = none →
      resolvedChannelKey u cfg cl ov = if u then cfg.channel_key else cl.key) ∧
    (∀ (kw : KwArgs) (gh : String → String → Nat)
      (enc : String → String → Nat → Nat → InnerMessage → Except String (List Nat))
      (mid : Nat) (msg : InnerMessage) (env : ServiceEnvelope),
      ov.channel_key = some "" →
      generate_mesh_packet u cfg cl ov kw gh enc mid msg = .ok env →
      env.packet.body = .decoded msg) := by
  refine ⟨?_, ?_, ?_⟩
  · intro k hk
    simp [resolvedChannelKey, hk]
  · intro hk
    simp [resolvedChannelKey, hk]
  · intro kw gh enc mid msg env hk henv
    obtain ⟨fid, hfid, hcase⟩ := generate_mesh_packet_ok_shape henv
    rcases hcase with ⟨_, henv'⟩ | ⟨hne, _⟩
    · rw [henv']
      rfl
    · exact absurd (by simp [resolvedChannelKey, hk]) hne

/-- Overrides carrying an explicit non-empty channel key. -/
def ovKeyAQ : Overrides := { ovNone with channel_key := some "AQ==" }

/-- Overrides carrying the explicit empty channel key. -/
def ovKeyEmpty : Overrides := { ovNone with channel_key := some "" }

/-- Configuration fixture with a non-empty channel key. -/
def cfgKey : Config := { cfgA with channel_key := "AQ==" }

/-- The envelope produced when an explicit empty key overrides `cfgKey`. -/
def envC2 : ServiceEnvelope :=
  mkEnvelope true cfgKey clA ovKeyEmpty kwNone hashA 7 2712847316 (.decoded msgHi)

/-- Witness for C2: an explicit key override wins, an unset override falls
back to the configuration key, and an explicit empty override forces a
cleartext body even though the configuration holds a non-empty key. -/
theorem C2_witness :
    resolvedChannelKey true cfgKey clA ovKeyAQ = "AQ==" ∧
      resolvedChannelKey true cfgKey clA ovNone = cfgKey.channel_key ∧
      envC2.packet.body = .decoded msgHi :=
  ⟨(C2_three_valued_channel_key_resolution true cfgKey clA ovKeyAQ).1 "AQ==" rfl,
    ((C2_three_valued_channel_key_resolution true cfgKey clA ovNone).2.1 rfl).trans (by decide),
    (C2_three_valued_channel_key_resolution true cfgKey clA ovKeyEmpty).2.2 kwNone hashA encFail
      7 msgHi envC2 rfl (by decide)⟩

/-- Keyword arguments supplying a per-call `hop_limit` of 5 and no
per-call `hop_start`. -/
def kwHop5 : KwArgs :=
  { «to» := none, want_ack := false, hop_limit := some 5, hop_start := none }

/-- C3 counterexample: with the override unset, a per-call `hop_limit = 5`
and no per-call `hop_start`, the assembled packet has `hop_limit = 5` but
`hop_start = 3` — the two fields do not carry one shared resolved value for
every combination of hop parameters, refuting the claim as stated. -/
theorem C3_counterexample :
    (generate_mesh_packet true cfgA clA ovNone kwHop5 hashA encOk 7 msgHi).map
        (fun env => (env.packet.hop_limit, env.packet.hop_start)) = .ok (5, 3) ∧
      (5 : Nat) ≠ 3 := by decide

/-- C3 (amended): `hop_limit` resolves as `override.hop_limit or per-call
hop_limit or 3` while `hop_start` resolves as `override.hop_limit or
per-call hop_start or 3` — the same override but distinct per-call
fallbacks.  The two fields therefore coincide whenever the override carries
a non-zero value, or whenever the two per-call hop values agree (in
particular on every CLI-driven send, which supplies neither), but not for
arbitrary combinations. -/
theorem C3_hop_start_mirrors_hop_limit
    (u : Bool) (cfg : Config) (cl : Client) (ov : Overrides) (kw : KwArgs)
    (gh : String → String → Nat)
    (enc : String → String → Nat → Nat → InnerMessage → Except String (List Nat))
    (mid : Nat) (msg : InnerMessage) (env : ServiceEnvelope)
    (h : generate_mesh_packet u cfg cl ov kw gh enc mid msg = .ok env) :
    env.packet.hop_limit = pyOrNat ov.hop_limit (kw.hop_limit.getD 3) ∧
      env.packet.hop_start = pyOrNat ov.hop_limit (kw.hop_start.getD 3) ∧
      (∀ n, ov.hop_limit = some n → n ≠ 0 →
        env.packet.hop_start = env.packet.hop_limit) ∧
      (kw.hop_limit = kw.hop_start → env.packet.hop_start = env.packet.hop_limit) := by
  obtain ⟨fid, hfid, hcase⟩ := generate_mesh_packet_ok_shape h
  have henv : env.packet.hop_limit = pyOrNat ov.hop_limit (kw.hop_limit.getD 3) ∧
      env.packet.hop_start = pyOrNat ov.hop_limit (kw.hop_start.getD 3) := by
    rcases hcase with ⟨_, henv'⟩ | ⟨_, b, _, henv'⟩ <;> rw [henv'] <;> exact ⟨rfl, rfl⟩
  refine ⟨henv.1, henv.2, ?_, ?_⟩
  · intro n hn hn0
    rw [henv.1, henv.2, hn]
    simp [pyOrNat, hn0]
  · intro hkw
    rw [henv.1, henv.2, hkw]

/-- Overrides carrying `hop_limit = 4`. -/
def ovHop4 : Overrides := { ovNone with hop_limit := some 4 }

/-- The envelope produced with `ovHop4` overriding `kwHop5`. -/
def envC3 : ServiceEnvelope :=
  mkEnvelope true cfgA clA ovHop4 kwHop5 hashA 7 2712847316 (.decoded msgHi)

/-- Witness for the amended C3: with the override set to 4 the two hop
fields both resolve to 4 and agree, even though the per-call values
differ. -/
theorem C3_hop_start_mirrors_hop_limit_witness :
    envC3.packet.hop_limit = 4 ∧ envC3.packet.hop_start = 4 ∧
      envC3.packet.hop_start = envC3.packet.hop_limit := by
  have h := C3_hop_start_mirrors_hop_limit true cfgA clA ovHop4 kwHop5 hashA encOk 7 msgHi
    envC3 (by decide)
  exact ⟨h.1.trans (by decide), h.2.1.trans (by decide), h.2.2.1 4 rfl (by decide)⟩

/-- C4: a resolved node identifier with the correct sigil that parses as
hexadecimal to a value in the reserved set {1, 2, 3, 4, 4294967295} makes
assembly fail with the reserved-id error — the check precedes every packet
field assignment — and no envelope is emitted. -/
theorem C4_reserved_source_rejected
    (u : Bool) (cfg : Config) (cl : Client) (ov : Overrides) (kw : KwArgs)
    (gh : String → String → Nat)
    (enc : String → String → Nat → Nat → InnerMessage → Except String (List Nat))
    (mid : Nat) (msg : InnerMessage) (v : Nat)
    (h1 : startsWithBang (resolvedNodeId u cfg cl ov) = true)
    (h2 : parseHex (stripBangs (resolvedNodeId u cfg cl ov)) = some v)
    (h3 : v ∈ reserved_ids) :
    generate_mesh_packet u cfg cl ov kw gh enc mid msg
      = .error "Node ID is reserved and cannot be used" := by
  simp only [generate_mesh_packet, h2]
  rw [if_neg (by simp [h1]), if_pos h3]

/-- Configuration fixture whose node id parses to the reserved broadcast
value. -/
def cfgResv : Config := { cfgA with nodeinfo_id := "!ffffffff" }

/-- Witness for C4: "!ffffffff" has the sigil and parses as hexadecimal to
4294967295, which is reserved, so assembly fails. -/
theorem C4_witness :
    startsWithBang (resolvedNodeId true cfgResv clA ovNone) = true ∧
      parseHex (stripBangs (resolvedNodeId true cfgResv clA ovNone)) = some 4294967295 ∧
      4294967295 ∈ reserved_ids ∧
      generate_mesh_packet true cfgResv clA ovNone kwNone hashA encOk 7 msgHi
        = .error "Node ID is reserved and cannot be used" :=
  ⟨by decide, by decide, by decide,
    C4_reserved_source_rejected true cfgResv clA ovNone kwNone hashA encOk 7 msgHi 4294967295
      (by decide) (by decide) (by decide)⟩

/-- C5: a resolved node identifier that does not begin with the sigil
character makes assembly fail immediately with the sigil error; no
envelope is produced. -/
theorem C5_missing_sigil_rejected
    (u : Bool) (cfg : Config) (cl : Client) (ov : Overrides) (kw : KwArgs)
    (gh : String → String → Nat)
    (enc : String → String → Nat → Nat → InnerMessage → Except String (List Nat))
    (mid : Nat) (msg : InnerMessage)
    (h : startsWithBang (resolvedNodeId u cfg cl ov) = false) :
    generate_mesh_packet u cfg cl ov kw gh enc mid msg
      = .error "Node ID must start with '!'" := by
  simp only [generate_mesh_packet]
  rw [if_pos (by simp [h])]

/-- Configuration fixture whose node id is missing the sigil. -/
def cfgNoBang : Config := { cfgA with nodeinfo_id := "a1b2c3d4" }

/-- Witness for C5: "a1b2c3d4" lacks the sigil, so assembly fails. -/
theorem C5_witness :
    startsWithBang (resolvedNodeId true cfgNoBang clA ovNone) = false ∧
      generate_mesh_packet true cfgNoBang clA ovNone kwNone hashA encOk 7 msgHi
        = .error "Node ID must start with '!'" :=
  ⟨by decide,
    C5_missing_sigil_rejected true cfgNoBang clA ovNone kwNone hashA encOk 7 msgHi (by decide)⟩

/-- C6: every error raised inside `publish_message`'s try block — by the
payload function (identity/channel resolution, packet assembly,
encryption) or by the transport publish call — is caught by the blanket
handler: `publish_message` returns a normal outcome that records the
logged message and publishes nothing, so no exception reaches the caller
and the remaining sends of a batch proceed. -/
theorem C6_publish_errors_swallowed
    (u : Bool) (cfg : Config) (cl : Client) (ov : Overrides)
    (pf : Except String ServiceEnvelope)
    (pub : String → ServiceEnvelope → Except String Unit) (e : String)
    (h : pf = .error e ∨
      ∃ env, pf = .ok env ∧ pub (resolveTopicState u cfg cl ov).2.2 env = .error e) :
    publish_message u cfg cl ov pf pub =
      { config := (resolveTopicState u cfg cl ov).1,
        client := (resolveTopicState u cfg cl ov).2.1,
        topic := (resolveTopicState u cfg cl ov).2.2,
        published := none, loggedError := some e } := by
  have htry : publish_message_try (resolveTopicState u cfg cl ov).2.2 pf pub = .error e := by
    rcases h with hpf | ⟨env, hpf, hpub⟩
    · simp [publish_message_try, hpf, Bind.bind, Except.bind]
    · simp [publish_message_try, hpf, hpub, Bind.bind, Except.bind]
  simp only [publish_message, htry]

/-- Witness for C6: an assembler failure is logged and swallowed; the
outcome is a normal return with nothing published. -/
theorem C6_witness :
    publish_message true cfgA clA ovNone (.error "InvalidKey") pubOk =
      { config := (resolveTopicState true cfgA clA ovNone).1,
        client := (resolveTopicState true cfgA clA ovNone).2.1,
        topic := (resolveTopicState true cfgA clA ovNone).2.2,
        published := none, loggedError := some "InvalidKey" } :=
  C6_publish_errors_swallowed true cfgA clA ovNone (.error "InvalidKey") pubOk "InvalidKey"
    (Or.inl rfl)

/-- C7: for every send the transport topic string is exactly
`root_topic + "/2/e/" + channel_preset + "/" + lowercase node id`, where
the channel segment is the resolved preset and the final segment the
resolved node identifier lowercased. -/
theorem C7_topic_format
    (u : Bool) (cfg : Config) (cl : Client) (ov : Overrides)
    (pf : Except String ServiceEnvelope)
    (pub : String → ServiceEnvelope → Except String Unit) :
    (publish_message u cfg cl ov pf pub).topic =
      (if u then cfg.root_topic else cl.root_topic) ++ "/2/e/"
        ++ resolvedChannelId u cfg cl ov ++ "/"
        ++ pyLower (resolvedNodeId u cfg cl ov) := by
  rw [(publish_message_state u cfg cl ov pf pub).2.2]
  cases u <;> simp [resolveTopicState, resolvedChannelId, resolvedNodeId]

/-- C8: the broadcast value 4294967295, rejected as a source id, is
accepted as destination: on an otherwise valid send whose resolved
destination is 4294967295, assembly succeeds — no reserved-set check is
applied to the destination — and the packet's to field is 4294967295. -/
theorem C8_broadcast_destination_accepted
    (u : Bool) (cfg : Config) (cl : Client) (ov : Overrides) (kw : KwArgs)
    (gh : String → String → Nat)
    (enc : String → String → Nat → Nat → InnerMessage → Except String (List Nat))
    (mid : Nat) (msg : InnerMessage) (from_id : Nat) (b : List Nat)
    (h1 : startsWithBang (resolvedNodeId u cfg cl ov) = true)
    (h2 : parseHex (stripBangs (resolvedNodeId u cfg cl ov)) = some from_id)
    (h3 : from_id ∉ reserved_ids)
    (h4 : from_id < 2 ^ 32)
    (h5 : resolvedDestination u cfg cl ov kw = 4294967295)
    (h6 : gh (resolvedChannelId u cfg cl ov) (resolvedChannelKey u cfg cl ov) < 2 ^ 32)
    (h7 : pyOrNat ov.hop_limit (kw.hop_limit.getD 3) < 2 ^ 32)
    (h8 : pyOrNat ov.hop_limit (kw.hop_start.getD 3) < 2 ^ 32)
    (h9 : resolvedChannelKey u cfg cl ov = "" ∨
      enc (resolvedChannelId u cfg cl ov) (resolvedChannelKey u cfg cl ov) mid from_id msg
        = .ok b) :
    ∃ env, generate_mesh_packet u cfg cl ov kw gh enc mid msg = .ok env ∧
      env.packet.«to» = 4294967295 := by
  have h5' : resolvedDestination u cfg cl ov kw < 2 ^ 32 := by
    rw [h5]; norm_num
  have heq := generate_mesh_packet_eq_of_valid u cfg cl ov kw gh enc mid msg from_id
    h1 h2 h3 h4 h5' h6 h7 h8
  by_cases hk : resolvedChannelKey u cfg cl ov = ""
  · refine ⟨mkEnvelope u cfg cl ov kw gh mid from_id (.decoded msg), ?_, h5⟩
    rw [heq, if_pos hk]
  · rcases h9 with hk' | henc
    · exact absurd hk' hk
    · refine ⟨mkEnvelope u cfg cl ov kw gh mid from_id (.encrypted b), ?_, h5⟩
      rw [heq, if_neg hk, henc]
      rfl

/-- Overrides carrying the broadcast destination. -/
def ovDest : Overrides := { ovNone with destination := some 4294967295 }

/-- Witness for C8: with the destination override 4294967295 and a valid
source id, assembly succeeds and the to field is the broadcast address. -/
theorem C8_witness :
    (generate_mesh_packet true cfgA clA ovDest kwNone hashA encOk 7 msgHi).map
      (fun env => env.packet.«to») = .ok 4294967295 := by
  obtain ⟨env, hok, hto⟩ := C8_broadcast_destination_accepted true cfgA clA ovDest kwNone
    hashA encOk 7 msgHi 2712847316 [] (by decide) (by decide) (by decide) (by decide)
    (by decide) (by decide) (by decide) (by decide) (Or.inl (by decide))
  rw [hok]
  simp [Except.map, hto]

/-- C9: under `use_config`, a non-empty `node_id` or `channel_preset`
override is written back into the shared configuration object before the
topic is built: the outcome's configuration — the state every subsequent
send in the process reads — carries the override values, and the topic is
built from those stored values. -/
theorem C9_overrides_written_back_to_config
    (cfg : Config) (cl : Client) (ov : Overrides)
    (pf : Except String ServiceEnvelope)
    (pub : String → ServiceEnvelope → Except String Unit) :
    (∀ s, ov.node_id = some s → s ≠ "" →
      (publish_message true cfg cl ov pf pub).config.nodeinfo_id = s) ∧
      (∀ p, ov.channel_preset = some p → p ≠ "" →
        (publish_message true cfg cl ov pf pub).config.channel_preset = p) ∧
      (publish_message true cfg cl ov pf pub).config.root_topic = cfg.root_topic ∧
      (publish_message true cfg cl ov pf pub).topic =
        cfg.root_topic ++ "/2/e/"
          ++ (publish_message true cfg cl ov pf pub).config.channel_preset ++ "/"
          ++ pyLower ((publish_message true cfg cl ov pf pub).config.nodeinfo_id) := by
  have hcfg := (publish_message_state true cfg cl ov pf pub).1
  have htop := (publish_message_state true cfg cl ov pf pub).2.2
  refine ⟨?_, ?_, ?_, ?_⟩
  · intro s hs hs0
    rw [hcfg]
    simp [resolveTopicState, pyOrStr, hs, hs0]
  · intro p hp hp0
    rw [hcfg]
    simp [resolveTopicState, pyOrStr, hp, hp0]
  · rw [hcfg]
    simp [resolveTopicState]
  · rw [htop, hcfg]
    simp [resolveTopicState]

/-- Overrides carrying a non-empty node id and channel preset. -/
def ovBoth : Overrides :=
  { ovNone with node_id := some "!ABCD12EF", channel_preset := some "MediumSlow" }

/-- Witness for C9: the overrides end up stored in the configuration even
though this particular send fails — the next send would read them. -/
theorem C9_witness :
    (publish_message true cfgA clA ovBoth (.error "InvalidNodeId") pubOk).config.nodeinfo_id
        = "!ABCD12EF" ∧
      (publish_message true cfgA clA ovBoth (.error "InvalidNodeId") pubOk).config.channel_preset
        = "MediumSlow" :=
  ⟨(C9_overrides_written_back_to_config cfgA clA ovBoth (.error "InvalidNodeId") pubOk).1
      "!ABCD12EF" rfl (by decide),
    (C9_overrides_written_back_to_config cfgA clA ovBoth (.error "InvalidNodeId") pubOk).2.1
      "MediumSlow" rfl (by decide)⟩

/-- Configuration fixture whose node id parses to the reserved value 1. -/
def cfgBang1 : Config := { cfgA with nodeinfo_id := "!1" }

/-- C10 counterexample: the identifier "!1" begins with the sigil and its
characters with all bangs removed ("1") form a valid hexadecimal string,
yet assembly fails — the parsed value 1 is reserved — so the claim as
stated (success for every such identifier) is false. -/
theorem C10_counterexample :
    startsWithBang "!1" = true ∧ parseHex (stripBangs "!1") = some 1 ∧
      generate_mesh_packet true cfgBang1 clA ovNone kwNone hashA encOk 7 msgHi
        = .error "Node ID is reserved and cannot be used" := by decide

/-- C10 (amended): node-identifier validation checks only that the first
character is the sigil, and every bang is removed before the hexadecimal
parse, so an identifier such as "!a1!b2" is accepted; if the parsed value
is not reserved and fits 32 bits (and the remaining resolved uint32 fields
are in range, with encryption succeeding whenever a non-empty key is
resolved), assembly succeeds and the packet's from field equals the parsed
value. -/
theorem C10_bang_stripping_hex_parse
    (u : Bool) (cfg : Config) (cl : Client) (ov : Overrides) (kw : KwArgs)
    (gh : String → String → Nat)
    (enc : String → String → Nat → Nat → InnerMessage → Except String (List Nat))
    (mid : Nat) (msg : InnerMessage) (from_id : Nat) (b : List Nat)
    (h1 : startsWithBang (resolvedNodeId u cfg cl ov) = true)
    (h2 : parseHex (stripBangs (resolvedNodeId u cfg cl ov)) = some from_id)
    (h3 : from_id ∉ reserved_ids)
    (h4 : from_id < 2 ^ 32)
    (h5 : resolvedDestination u cfg cl ov kw < 2 ^ 32)
    (h6 : gh (resolvedChannelId u cfg cl ov) (resolvedChannelKey u cfg cl ov) < 2 ^ 32)
    (h7 : pyOrNat ov.hop_limit (kw.hop_limit.getD 3) < 2 ^ 32)
    (h8 : pyOrNat ov.hop_limit (kw.hop_start.getD 3) < 2 ^ 32)
    (h9 : resolvedChannelKey u cfg cl ov = "" ∨
      enc (resolvedChannelId u cfg cl ov) (resolvedChannelKey u cfg cl ov) mid from_id msg
        = .ok b) :
    ∃ env, generate_mesh_packet u cfg cl ov kw gh enc mid msg = .ok env ∧
      env.packet.«from» = from_id := by
  have heq := generate_mesh_packet_eq_of_valid u cfg cl ov kw gh enc mid msg from_id
    h1 h2 h3 h4 h5 h6 h7 h8
  by_cases hk : resolvedChannelKey u cfg cl ov = ""
  · refine ⟨mkEnvelope u cfg cl ov kw gh mid from_id (.decoded msg), ?_, rfl⟩
    rw [heq, if_pos hk]
  · rcases h9 with hk' | henc
    · exact absurd hk' hk
    · refine ⟨mkEnvelope u cfg cl ov kw gh mid from_id (.encrypted b), ?_, rfl⟩
      rw [heq, if_neg hk, henc]
      rfl

/-- Configuration fixture whose node id has an interior bang. -/
def cfgBangs : Config := { cfgA with nodeinfo_id := "!a1!b2" }

/-- Witness for the amended C10: "!a1!b2" is accepted and its from field is
0xa1b2 = 41394. -/
theorem C10_bang_stripping_hex_parse_witness :
    (generate_mesh_packet true cfgBangs clA ovNone kwNone hashA encOk 7 msgHi).map
      (fun env => env.packet.«from») = .ok 41394 := by
  obtain ⟨env, hok, hfrom⟩ := C10_bang_stripping_hex_parse true cfgBangs clA ovNone kwNone
    hashA encOk 7 msgHi 41394 [] (by decide) (by decide) (by decide) (by decide)
    (by decide) (by decide) (by decide) (by decide) (Or.inl (by decide))
  rw [hok]
  simp [Except.map, hfrom]

end Mmqtt
